import Mathlib

/-!
Receive-window accounting of `lib/nghttp2_helper.c`.

A shallow embedding of `nghttp2_adjust_local_window_size` and the properties
of its ledger of three `int32_t` counters, of
`nghttp2_should_send_window_update`, and of the header field checks
`nghttp2_check_header_name`, `nghttp2_check_header_name_nocase`,
`nghttp2_check_header_value` together with `nghttp2_downcase`.

The C function works on `int32_t` objects.  They are modelled as integers, and
every arithmetic operation of the source is followed by a normalisation
`norm`.  Taking `norm = wrap32` gives the two's-complement machine reading
(`nghttp2_adjust_local_window_size`); taking `norm = id` gives the reading over
the unbounded integers (`nghttp2_adjust_local_window_size_exact`).
-/

namespace Nghttp2

/-! ## Machine integers -/

/-- Smallest `int32_t` value, `-2^31`. -/
def INT32_MIN : Int := -2147483648

/-- Largest `int32_t` value, `2^31 - 1`. -/
def INT32_MAX : Int := 2147483647

/-- Membership of an integer in the `int32_t` range. -/
def isInt32 (x : Int) : Prop := INT32_MIN ≤ x ∧ x ≤ INT32_MAX

instance (x : Int) : Decidable (isInt32 x) := by
  unfold isInt32; exact inferInstance

/-- Two's-complement reduction of an integer to the `int32_t` range. -/
def wrap32 (x : Int) : Int := (x + 2147483648) % 4294967296 - 2147483648

/-! ## Constants and macros declared in headers -/

/-- Modelled from the spec: `MAX_WINDOW = 2^31 - 1`, the macro
`NGHTTP2_MAX_WINDOW_SIZE` of the public header, which is not among the
sources. -/
def NGHTTP2_MAX_WINDOW_SIZE : Int := 2147483647

/-- Modelled from the spec: the `FlowControlViolation` error, the enumerator
`NGHTTP2_ERR_FLOW_CONTROL` of the public header, which is not among the
sources.  The library's value is `-524`; the properties below only use that it
is not `0`. -/
def NGHTTP2_ERR_FLOW_CONTROL : Int := -524

/-- Modelled from the spec: `max`, the macro
`nghttp2_max(A, B) ((A) > (B) ? (A) : (B))` of `nghttp2_helper.h`. -/
def nghttp2_max (a b : Int) : Int := if a > b then a else b

/-- Modelled from the spec: `min`, the macro
`nghttp2_min(A, B) ((A) < (B) ? (A) : (B))` of `nghttp2_helper.h`. -/
def nghttp2_min (a b : Int) : Int := if a < b then a else b

/-! ## The ledger -/

/-- The three counters the function updates through its first three pointer
arguments: `advertised_window`, `consumed_credit` and `pending_shrink_debt` of
the specification. -/
structure Ledger where
  local_window_size : Int
  recv_window_size : Int
  recv_reduction : Int
deriving DecidableEq, Repr

/-- All three counters are `int32_t` values. -/
def Ledger.isInt32 (s : Ledger) : Prop :=
  Nghttp2.isInt32 s.local_window_size ∧ Nghttp2.isInt32 s.recv_window_size ∧
    Nghttp2.isInt32 s.recv_reduction

instance (s : Ledger) : Decidable s.isInt32 := by
  unfold Ledger.isInt32; exact inferInstance

/-- What a call leaves behind: the return value, the ledger, and the value of
`*delta_ptr`. -/
structure AdjustResult where
  rv : Int
  ledger : Ledger
  delta : Int
deriving DecidableEq, Repr

/-- The body of `nghttp2_adjust_local_window_size`, statement by statement,
with `norm` applied to the result of every arithmetic operation. -/
def adjust_with (norm : Int → Int) (s : Ledger) (delta : Int) : AdjustResult :=
  if delta > 0 then
    let new_recv_window_size := norm (nghttp2_max 0 s.recv_window_size - delta)
    if new_recv_window_size < 0 then
      if s.local_window_size > norm (NGHTTP2_MAX_WINDOW_SIZE + new_recv_window_size) then
        ⟨NGHTTP2_ERR_FLOW_CONTROL, s, delta⟩
      else
        let local_window_size := norm (s.local_window_size - new_recv_window_size)
        let recv_reduction_diff :=
          nghttp2_min s.recv_reduction (norm (-new_recv_window_size))
        let recv_reduction := norm (s.recv_reduction - recv_reduction_diff)
        let recv_window_size :=
          if s.recv_window_size < 0 then norm (s.recv_window_size + recv_reduction_diff)
          else recv_reduction_diff
        ⟨0, ⟨local_window_size, recv_window_size, recv_reduction⟩,
          norm (delta - recv_reduction_diff)⟩
    else
      ⟨0, ⟨s.local_window_size, new_recv_window_size, s.recv_reduction⟩, delta⟩
  else
    if norm (s.local_window_size + delta) < 0 ∨
        s.recv_window_size < norm (INT32_MIN - delta) ∨
        s.recv_reduction > norm (INT32_MAX + delta) then
      ⟨NGHTTP2_ERR_FLOW_CONTROL, s, delta⟩
    else
      ⟨0, ⟨norm (s.local_window_size + delta), norm (s.recv_window_size + delta),
        norm (s.recv_reduction - delta)⟩, 0⟩

/-- The function on the machine: `int32_t` arithmetic, two's complement. -/
def nghttp2_adjust_local_window_size (s : Ledger) (delta : Int) : AdjustResult :=
  adjust_with wrap32 s delta

/-- The same statements over the unbounded integers. -/
def nghttp2_adjust_local_window_size_exact (s : Ledger) (delta : Int) : AdjustResult :=
  adjust_with id s delta

/-- Modelled from the spec: the external "record N bytes received" step, which
increments `consumed_credit` by the number of payload bytes received.  It is
carried out by the session layer, which is not among the sources; keeping the
sum representable is that layer's concern. -/
def record_received (s : Ledger) (n : Int) : Ledger :=
  ⟨s.local_window_size, s.recv_window_size + n, s.recv_reduction⟩

/-- One event in the life of a ledger: a call of
`nghttp2_adjust_local_window_size` with some delta, or the receipt of `n` bytes. -/
inductive Step where
  | adjust (delta : Int)
  | received (n : Nat)
deriving DecidableEq, Repr

/-- The ledger after one event.  A failing call returns the ledger it was given. -/
def applyStep (s : Ledger) : Step → Ledger
  | Step.adjust delta => (nghttp2_adjust_local_window_size s delta).ledger
  | Step.received n => record_received s n

/-- The ledger after a finite sequence of events, oldest first. -/
def run (s : Ledger) (steps : List Step) : Ledger :=
  steps.foldl applyStep s

/-- The value of every arithmetic expression the function evaluates, in the
order of evaluation and over the unbounded integers (the right operands of
`||` are evaluated only when the left ones are false).  Where the source
assigns `recv_reduction_diff` to `*recv_window_size_ptr` without arithmetic,
the assigned value stands in the list. -/
def adjust_exprs (s : Ledger) (delta : Int) : List Int :=
  if delta > 0 then
    let new_recv_window_size := nghttp2_max 0 s.recv_window_size - delta
    if new_recv_window_size < 0 then
      if s.local_window_size > NGHTTP2_MAX_WINDOW_SIZE + new_recv_window_size then
        [new_recv_window_size, NGHTTP2_MAX_WINDOW_SIZE + new_recv_window_size]
      else
        let recv_reduction_diff := nghttp2_min s.recv_reduction (-new_recv_window_size)
        [new_recv_window_size, NGHTTP2_MAX_WINDOW_SIZE + new_recv_window_size,
          s.local_window_size - new_recv_window_size, -new_recv_window_size,
          s.recv_reduction - recv_reduction_diff,
          if s.recv_window_size < 0 then s.recv_window_size + recv_reduction_diff
          else recv_reduction_diff,
          delta - recv_reduction_diff]
    else
      [new_recv_window_size]
  else
    if s.local_window_size + delta < 0 then
      [s.local_window_size + delta]
    else if s.recv_window_size < INT32_MIN - delta then
      [s.local_window_size + delta, INT32_MIN - delta]
    else if s.recv_reduction > INT32_MAX + delta then
      [s.local_window_size + delta, INT32_MIN - delta, INT32_MAX + delta]
    else
      [s.local_window_size + delta, INT32_MIN - delta, INT32_MAX + delta,
        s.local_window_size + delta, s.recv_window_size + delta,
        s.recv_reduction - delta]

/-! ## The credit threshold -/

/-- The function `nghttp2_should_send_window_update`: the value of the C
comparison `recv_window_size >= local_window_size / 2`, which is 1 or 0.  The
operator `/` on `int32_t` truncates toward zero, as `Int.tdiv` does, and half
of an `int32_t` value is an `int32_t` value. -/
def nghttp2_should_send_window_update (local_window_size recv_window_size : Int) : Int :=
  if recv_window_size ≥ Int.tdiv local_window_size 2 then 1 else 0

/-- The words of the specification, "integer division, truncating toward
zero": the quotient of the magnitudes, rounded down, with the sign that the
signs of the operands give. -/
def div_toward_zero (a b : Int) : Int :=
  Int.sign a * Int.sign b * ((a.natAbs / b.natAbs : Nat) : Int)

/-- The words of the specification: `CreditThreshold` "returns true when
`consumed_credit >= advertised_window / 2`". -/
def CreditThreshold (advertised_window consumed_credit : Int) : Bool :=
  decide (consumed_credit ≥ div_toward_zero advertised_window 2)

/-- The debt invariant: the debt is not negative, and a negative credit never
exceeds the debt still owed. -/
def debt_invariant (s : Ledger) : Prop :=
  0 ≤ s.recv_reduction ∧ 0 ≤ s.recv_window_size + s.recv_reduction

instance (s : Ledger) : Decidable (debt_invariant s) := by
  unfold debt_invariant; exact inferInstance

/-! ## Header field checks -/

/-- An octet, the `uint8_t` of the source. -/
abbrev Octet := Fin 256

/-- The table `VALID_HD_NAME_CHARS` of the source, entry by entry, sixteen to
a row: 1 for an octet allowed in a header field name, -1 otherwise. -/
def VALID_HD_NAME_CHARS : List Int := [
  -1, -1, -1, -1, -1, -1, -1, -1, -1, -1, -1, -1, -1, -1, -1, -1, -- 0x00
  -1, -1, -1, -1, -1, -1, -1, -1, -1, -1, -1, -1, -1, -1, -1, -1, -- 0x10
  -1,  1, -1,  1,  1,  1,  1,  1, -1, -1,  1,  1, -1,  1,  1, -1, -- 0x20
   1,  1,  1,  1,  1,  1,  1,  1,  1,  1, -1, -1, -1, -1, -1, -1, -- 0x30
  -1, -1, -1, -1, -1, -1, -1, -1, -1, -1, -1, -1, -1, -1, -1, -1, -- 0x40
  -1, -1, -1, -1, -1, -1, -1, -1, -1, -1, -1, -1, -1, -1,  1,  1, -- 0x50
   1,  1,  1,  1,  1,  1,  1,  1,  1,  1,  1,  1,  1,  1,  1,  1, -- 0x60
   1,  1,  1,  1,  1,  1,  1,  1,  1,  1,  1, -1,  1, -1,  1, -1, -- 0x70
  -1, -1, -1, -1, -1, -1, -1, -1, -1, -1, -1, -1, -1, -1, -1, -1, -- 0x80
  -1, -1, -1, -1, -1, -1, -1, -1, -1, -1, -1, -1, -1, -1, -1, -1, -- 0x90
  -1, -1, -1, -1, -1, -1, -1, -1, -1, -1, -1, -1, -1, -1, -1, -1, -- 0xa0
  -1, -1, -1, -1, -1, -1, -1, -1, -1, -1, -1, -1, -1, -1, -1, -1, -- 0xb0
  -1, -1, -1, -1, -1, -1, -1, -1, -1, -1, -1, -1, -1, -1, -1, -1, -- 0xc0
  -1, -1, -1, -1, -1, -1, -1, -1, -1, -1, -1, -1, -1, -1, -1, -1, -- 0xd0
  -1, -1, -1, -1, -1, -1, -1, -1, -1, -1, -1, -1, -1, -1, -1, -1, -- 0xe0
  -1, -1, -1, -1, -1, -1, -1, -1, -1, -1, -1, -1, -1, -1, -1, -1  -- 0xf0
  ]

/-- The table `VALID_HD_VALUE_CHARS` of the source, entry by entry, sixteen to
a row: 1 for an octet allowed in a header field value, -1 otherwise. -/
def VALID_HD_VALUE_CHARS : List Int := [
   1, -1, -1, -1, -1, -1, -1, -1, -1,  1, -1, -1, -1, -1, -1, -1, -- 0x00
  -1, -1, -1, -1, -1, -1, -1, -1, -1, -1, -1, -1, -1, -1, -1, -1, -- 0x10
   1,  1,  1,  1,  1,  1,  1,  1,  1,  1,  1,  1,  1,  1,  1,  1, -- 0x20
   1,  1,  1,  1,  1,  1,  1,  1,  1,  1,  1,  1,  1,  1,  1,  1, -- 0x30
   1,  1,  1,  1,  1,  1,  1,  1,  1,  1,  1,  1,  1,  1,  1,  1, -- 0x40
   1,  1,  1,  1,  1,  1,  1,  1,  1,  1,  1,  1,  1,  1,  1,  1, -- 0x50
   1,  1,  1,  1,  1,  1,  1,  1,  1,  1,  1,  1,  1,  1,  1,  1, -- 0x60
   1,  1,  1,  1,  1,  1,  1,  1,  1,  1,  1,  1,  1,  1,  1, -1, -- 0x70
   1,  1,  1,  1,  1,  1,  1,  1,  1,  1,  1,  1,  1,  1,  1,  1, -- 0x80
   1,  1,  1,  1,  1,  1,  1,  1,  1,  1,  1,  1,  1,  1,  1,  1, -- 0x90
   1,  1,  1,  1,  1,  1,  1,  1,  1,  1,  1,  1,  1,  1,  1,  1, -- 0xa0
   1,  1,  1,  1,  1,  1,  1,  1,  1,  1,  1,  1,  1,  1,  1,  1, -- 0xb0
   1,  1,  1,  1,  1,  1,  1,  1,  1,  1,  1,  1,  1,  1,  1,  1, -- 0xc0
   1,  1,  1,  1,  1,  1,  1,  1,  1,  1,  1,  1,  1,  1,  1,  1, -- 0xd0
   1,  1,  1,  1,  1,  1,  1,  1,  1,  1,  1,  1,  1,  1,  1,  1, -- 0xe0
   1,  1,  1,  1,  1,  1,  1,  1,  1,  1,  1,  1,  1,  1,  1,  1  -- 0xf0
  ]

/-- The entry `table[c]` for an octet `c`.  Both tables have 256 entries, so
the index is always within the table. -/
def table_at (table : List Int) (c : Octet) : Int :=
  table.getD c.val 0

/-- The function `nghttp2_downcase`: the loop over `s[0..len)` adds `'a' - 'A'`
(32) to every octet between `'A'` (65) and `'Z'` (90). -/
def nghttp2_downcase : List Octet → List Octet
  | [] => []
  | c :: rest => (if 65 ≤ c ∧ c ≤ 90 then c + 32 else c) :: nghttp2_downcase rest

/-- The `for` loop of `check_header_name` over the octets left after the
optional leading colon. -/
def check_header_name_loop (nocase : Int) : List Octet → Int
  | [] => 1
  | c :: rest =>
    if nocase ≠ 0 ∧ 65 ≤ c ∧ c ≤ 90 then check_header_name_loop nocase rest
    else if table_at VALID_HD_NAME_CHARS c = -1 then 0
    else check_header_name_loop nocase rest

/-- The static function `check_header_name`: 0 for `len == 0`; a leading `':'`
(58) is skipped, 0 if it was the only octet; then the loop. -/
def check_header_name (name : List Octet) (nocase : Int) : Int :=
  match name with
  | [] => 0
  | c :: rest =>
    if c = 58 then
      match rest with
      | [] => 0
      | d :: more => check_header_name_loop nocase (d :: more)
    else check_header_name_loop nocase (c :: rest)

/-- The function `nghttp2_check_header_name`. -/
def nghttp2_check_header_name (name : List Octet) : Int :=
  check_header_name name 0

/-- The function `nghttp2_check_header_name_nocase`. -/
def nghttp2_check_header_name_nocase (name : List Octet) : Int :=
  check_header_name name 1

/-- The function `nghttp2_check_header_value`: 0 at the first octet whose table
entry is -1, 1 when the loop runs to the end. -/
def nghttp2_check_header_value : List Octet → Int
  | [] => 1
  | c :: rest =>
    if table_at VALID_HD_VALUE_CHARS c = -1 then 0 else nghttp2_check_header_value rest

/-- The octets the claim on header names lists: `! # $ % & ' * + - . ^ _` and
the backquote, `| ~`, a digit, or a lowercase letter. -/
def is_name_octet (c : Octet) : Prop :=
  c.val = 33 ∨ c.val = 35 ∨ c.val = 36 ∨ c.val = 37 ∨ c.val = 38 ∨ c.val = 39 ∨
    c.val = 42 ∨ c.val = 43 ∨ c.val = 45 ∨ c.val = 46 ∨ c.val = 94 ∨ c.val = 95 ∨
    c.val = 96 ∨ c.val = 124 ∨ c.val = 126 ∨ (48 ≤ c.val ∧ c.val ≤ 57) ∨
    (97 ≤ c.val ∧ c.val ≤ 122)

instance (c : Octet) : Decidable (is_name_octet c) := by
  unfold is_name_octet; exact inferInstance

/-- The octets the claim on header values lists: 0x00, 0x09 (HTAB), 0x20 to
0x7E, and 0x80 to 0xFF. -/
def is_value_octet (c : Octet) : Prop :=
  c.val = 0 ∨ c.val = 9 ∨ (32 ≤ c.val ∧ c.val ≤ 126) ∨ (128 ≤ c.val ∧ c.val ≤ 255)

instance (c : Octet) : Decidable (is_value_octet c) := by
  unfold is_value_octet; exact inferInstance

/-- The name "after removing at most one leading `':'` byte". -/
def without_leading_colon : List Octet → List Octet
  | [] => []
  | c :: rest => if c = 58 then rest else c :: rest

/-! ## Basic facts -/

theorem wrap32_of_isInt32 {x : Int} (h : isInt32 x) : wrap32 x = x := by
  unfold isInt32 INT32_MIN INT32_MAX at h
  unfold wrap32
  omega

theorem wrap32_isInt32 (x : Int) : isInt32 (wrap32 x) := by
  unfold isInt32 INT32_MIN INT32_MAX wrap32
  omega


theorem nghttp2_max_eq (a b : Int) : nghttp2_max a b = max a b := by
  unfold nghttp2_max
  split_ifs <;> omega

theorem nghttp2_min_eq (a b : Int) : nghttp2_min a b = min a b := by
  unfold nghttp2_min
  split_ifs <;> omega

/-! ## The machine function branch by branch -/

/-- For `delta <= 0` and a representable `L + delta`, the three guards of the
machine function compare the exact sums. -/
theorem machine_shrink (s : Ledger) (delta : Int) (hs : s.isInt32) (hd : isInt32 delta)
    (hle : delta ≤ 0) (hrep : INT32_MIN ≤ s.local_window_size + delta) :
    nghttp2_adjust_local_window_size s delta =
      if s.local_window_size + delta < 0 ∨ s.recv_window_size + delta < INT32_MIN ∨
          s.recv_reduction - delta > INT32_MAX then
        ⟨NGHTTP2_ERR_FLOW_CONTROL, s, delta⟩
      else
        ⟨0, ⟨s.local_window_size + delta, s.recv_window_size + delta,
          s.recv_reduction - delta⟩, 0⟩ := by
  obtain ⟨L, R, D⟩ := s
  have h0 : ¬ delta > 0 := not_lt.mpr hle
  simp only [Ledger.isInt32, isInt32, INT32_MIN, INT32_MAX] at hs hd hrep
  simp only [nghttp2_adjust_local_window_size, adjust_with, if_neg h0, INT32_MIN, INT32_MAX,
    wrap32]
  split_ifs with h1 h2 h3
  · rfl
  · exact absurd (by omega) h2
  · exact absurd (by omega) h1
  · simp only [AdjustResult.mk.injEq, Ledger.mk.injEq, true_and, and_true]
    omega

/-- For `delta > 0` the machine function decides on the exact
`u = max(0, R) - delta`; only `R + r` and `delta - r` may wrap. -/
theorem machine_grow (s : Ledger) (delta : Int) (hs : s.isInt32) (hd : isInt32 delta)
    (hpos : 0 < delta) :
    nghttp2_adjust_local_window_size s delta =
      if max 0 s.recv_window_size - delta < 0 then
        if s.local_window_size > NGHTTP2_MAX_WINDOW_SIZE + (max 0 s.recv_window_size - delta) then
          ⟨NGHTTP2_ERR_FLOW_CONTROL, s, delta⟩
        else
          ⟨0, ⟨s.local_window_size - (max 0 s.recv_window_size - delta),
            if s.recv_window_size < 0 then
              wrap32 (s.recv_window_size +
                min s.recv_reduction (-(max 0 s.recv_window_size - delta)))
            else min s.recv_reduction (-(max 0 s.recv_window_size - delta)),
            s.recv_reduction - min s.recv_reduction (-(max 0 s.recv_window_size - delta))⟩,
            wrap32 (delta - min s.recv_reduction (-(max 0 s.recv_window_size - delta)))⟩
      else
        ⟨0, ⟨s.local_window_size, max 0 s.recv_window_size - delta, s.recv_reduction⟩,
          delta⟩ := by
  obtain ⟨L, R, D⟩ := s
  simp only [Ledger.isInt32, isInt32, INT32_MIN, INT32_MAX] at hs hd
  have hnr : wrap32 (nghttp2_max 0 R - delta) = max 0 R - delta := by
    rw [nghttp2_max_eq]; unfold wrap32; omega
  simp only [nghttp2_adjust_local_window_size, adjust_with, if_pos hpos, hnr, nghttp2_min_eq]
  by_cases hneg : max 0 R - delta < 0
  · have hlim : wrap32 (NGHTTP2_MAX_WINDOW_SIZE + (max 0 R - delta))
        = NGHTTP2_MAX_WINDOW_SIZE + (max 0 R - delta) := by
      unfold wrap32 NGHTTP2_MAX_WINDOW_SIZE; omega
    have hopp : wrap32 (-(max 0 R - delta)) = -(max 0 R - delta) := by
      unfold wrap32; omega
    simp only [if_pos hneg, hlim, hopp]
    by_cases hguard : L > NGHTTP2_MAX_WINDOW_SIZE + (max 0 R - delta)
    · simp only [if_pos hguard]
    · have hloc : wrap32 (L - (max 0 R - delta)) = L - (max 0 R - delta) := by
        unfold NGHTTP2_MAX_WINDOW_SIZE at hguard; unfold wrap32; omega
      have hred : wrap32 (D - min D (-(max 0 R - delta)))
          = D - min D (-(max 0 R - delta)) := by
        unfold wrap32; omega
      simp only [if_neg hguard, hloc, hred]
  · simp only [if_neg hneg]

/-! ## The shrink case -/

/-- C1: for every ledger of `int32_t` values kept by the function, that is with
`advertised_window >= 0`, and every `int32_t` `delta <= 0` on which the call
succeeds, the resulting ledger is exactly `(L + delta, R + delta, D - delta)`
and the delta output is 0. -/
theorem shrink_result (s : Ledger) (delta : Int) (hs : s.isInt32) (hd : isInt32 delta)
    (hL : 0 ≤ s.local_window_size) (hle : delta ≤ 0)
    (hok : (nghttp2_adjust_local_window_size s delta).rv = 0) :
    nghttp2_adjust_local_window_size s delta =
      ⟨0, ⟨s.local_window_size + delta, s.recv_window_size + delta,
        s.recv_reduction - delta⟩, 0⟩ := by
  obtain ⟨L, R, D⟩ := s
  have h0 : ¬ delta > 0 := not_lt.mpr hle
  simp only [Ledger.isInt32, isInt32, INT32_MIN, INT32_MAX] at hs hd hL
  simp only [nghttp2_adjust_local_window_size, adjust_with, if_neg h0, INT32_MIN, INT32_MAX,
    NGHTTP2_ERR_FLOW_CONTROL, wrap32] at hok ⊢
  split_ifs at hok ⊢ with h2
  · simp at hok
  · simp only [AdjustResult.mk.injEq, Ledger.mk.injEq, true_and, and_true]
    omega

/-- The scenario of the specification: `(65535, 0, 0)` shrunk by 1000. -/
theorem shrink_result_witness :
    nghttp2_adjust_local_window_size ⟨65535, 0, 0⟩ (-1000) =
      ⟨0, ⟨64535, -1000, 1000⟩, 0⟩ :=
  shrink_result ⟨65535, 0, 0⟩ (-1000) (by decide) (by decide) (by decide) (by decide)
    (by decide)

/-! ## The grow case -/

/-- With a non-negative debt the resolved amount `r = min(D, -u)` lies between
0 and `delta`, so `R + r` (for `R < 0`) and `delta - r` are representable. -/
theorem resolved_debt_representable (s : Ledger) (delta u r : Int) (hs : s.isInt32)
    (hd : isInt32 delta) (hu : u = max 0 s.recv_window_size - delta) (hneg : u < 0)
    (hr : r = min s.recv_reduction (-u)) (hdebt : 0 ≤ s.recv_reduction) :
    (s.recv_window_size < 0 → INT32_MIN ≤ s.recv_window_size + r) ∧
      delta - r ≤ INT32_MAX := by
  simp only [Ledger.isInt32, isInt32, INT32_MIN, INT32_MAX] at hs hd ⊢
  omega

/-- C2: for every ledger of `int32_t` values kept by the function, that is with
`pending_shrink_debt >= 0`, and every `int32_t` `delta > 0` with
`u = max(0, R) - delta < 0` and `L - u <= 2^31 - 1`, the call succeeds and, with
`r = min(D, -u)`, yields `advertised_window = L - u`,
`pending_shrink_debt = D - r`, `consumed_credit = R + r` if `R < 0` and `r`
otherwise, and delta output `delta - r`. -/
theorem grow_beyond_credit (s : Ledger) (delta u r : Int) (hs : s.isInt32)
    (hd : isInt32 delta) (hdebt : 0 ≤ s.recv_reduction) (hpos : 0 < delta)
    (hu : u = max 0 s.recv_window_size - delta) (hneg : u < 0)
    (hL : s.local_window_size - u ≤ 2147483647)
    (hr : r = min s.recv_reduction (-u)) :
    nghttp2_adjust_local_window_size s delta =
      ⟨0, ⟨s.local_window_size - u,
        if s.recv_window_size < 0 then s.recv_window_size + r else r,
        s.recv_reduction - r⟩, delta - r⟩ := by
  obtain ⟨hR, hD⟩ := resolved_debt_representable s delta u r hs hd hu hneg hr hdebt
  obtain ⟨L, R, D⟩ := s
  simp only [Ledger.isInt32, isInt32, INT32_MIN, INT32_MAX] at hs hd hR hD
  simp only at hu hL hr hR hdebt
  have hnr : wrap32 (nghttp2_max 0 R - delta) = u := by
    rw [nghttp2_max_eq, hu]; unfold wrap32; omega
  have hlim : wrap32 (NGHTTP2_MAX_WINDOW_SIZE + u) = 2147483647 + u := by
    unfold wrap32 NGHTTP2_MAX_WINDOW_SIZE; omega
  have hopp : wrap32 (-u) = -u := by unfold wrap32; omega
  have hloc : wrap32 (L - u) = L - u := by unfold wrap32; omega
  have hdiff : nghttp2_min D (-u) = r := by rw [nghttp2_min_eq, hr]
  have hred : wrap32 (D - r) = D - r := by unfold wrap32; omega
  have hdel : wrap32 (delta - r) = delta - r := by unfold wrap32; omega
  have hrw : R < 0 → wrap32 (R + r) = R + r := by
    intro h; have := hR h; unfold wrap32; omega
  have hguard : ¬ L > 2147483647 + u := by omega
  simp only [nghttp2_adjust_local_window_size, adjust_with, if_pos hpos, hnr, if_pos hneg,
    hlim, if_neg hguard, hopp, hloc, hdiff, hred, hdel]
  split_ifs with h
  · rw [hrw h]
  · rfl

/-- A grow by 1 that resolves an earlier shrink by 1: `(100, -1, 1)` becomes
`(101, 0, 0)` and nothing is left to announce. -/
theorem grow_beyond_credit_witness :
    nghttp2_adjust_local_window_size ⟨100, -1, 1⟩ 1 =
      ⟨0, ⟨100 - (-1), if (-1 : Int) < 0 then -1 + 1 else 1, 1 - 1⟩, 1 - 1⟩ :=
  grow_beyond_credit ⟨100, -1, 1⟩ 1 (-1) 1 (by decide) (by decide) (by decide) (by decide)
    (by decide) (by decide) (by decide) (by decide)

/-- C3: for every ledger of `int32_t` values and every `int32_t` `delta > 0`,
`max(0, R) - delta >= 0` says the same as `R >= delta`, and then the call
succeeds, sets `consumed_credit` to `R - delta` and leaves `advertised_window`,
`pending_shrink_debt` and delta as they were. -/
theorem grow_within_credit (s : Ledger) (delta : Int) (hs : s.isInt32)
    (hd : isInt32 delta) (hpos : 0 < delta) :
    (0 ≤ max 0 s.recv_window_size - delta ↔ delta ≤ s.recv_window_size) ∧
      (0 ≤ max 0 s.recv_window_size - delta →
        nghttp2_adjust_local_window_size s delta =
          ⟨0, ⟨s.local_window_size, s.recv_window_size - delta, s.recv_reduction⟩,
            delta⟩) := by
  obtain ⟨L, R, D⟩ := s
  simp only [Ledger.isInt32, isInt32, INT32_MIN, INT32_MAX] at hs hd
  refine ⟨by simp only; omega, fun hcov => ?_⟩
  simp only at hcov
  have hnr : wrap32 (nghttp2_max 0 R - delta) = R - delta := by
    rw [nghttp2_max_eq]; unfold wrap32; omega
  have hge : ¬ R - delta < 0 := by omega
  simp only [nghttp2_adjust_local_window_size, adjust_with, if_pos hpos, hnr, if_neg hge]

/-- The library's own test: `(100, 50, 0)` grown by 49 gives `(100, 1, 0)` with
delta still 49. -/
theorem grow_within_credit_witness :
    (0 : Int) ≤ max 0 50 - 49 ∧
      nghttp2_adjust_local_window_size ⟨100, 50, 0⟩ 49 = ⟨0, ⟨100, 50 - 49, 0⟩, 49⟩ :=
  ⟨by decide,
    (grow_within_credit ⟨100, 50, 0⟩ 49 (by decide) (by decide) (by decide)).2 (by decide)⟩

/-! ## Failure -/

/-- C4: whenever the call returns the flow-control error, the ledger and the
delta are exactly those it was given. -/
theorem error_is_atomic (s : Ledger) (delta : Int)
    (herr : (nghttp2_adjust_local_window_size s delta).rv = NGHTTP2_ERR_FLOW_CONTROL) :
    (nghttp2_adjust_local_window_size s delta).ledger = s ∧
      (nghttp2_adjust_local_window_size s delta).delta = delta := by
  simp only [nghttp2_adjust_local_window_size, adjust_with, NGHTTP2_ERR_FLOW_CONTROL]
    at herr ⊢
  split_ifs at herr ⊢ <;> exact ⟨rfl, rfl⟩

/-- Both failing calls of the library's test leave `(100, 50, 0)` and the delta
untouched: `delta = INT32_MAX` and `delta = INT32_MIN`. -/
theorem error_is_atomic_witness :
    ((nghttp2_adjust_local_window_size ⟨100, 50, 0⟩ INT32_MAX).rv = NGHTTP2_ERR_FLOW_CONTROL ∧
      (nghttp2_adjust_local_window_size ⟨100, 50, 0⟩ INT32_MAX).ledger = ⟨100, 50, 0⟩ ∧
      (nghttp2_adjust_local_window_size ⟨100, 50, 0⟩ INT32_MAX).delta = INT32_MAX) ∧
    ((nghttp2_adjust_local_window_size ⟨100, 50, 0⟩ INT32_MIN).rv = NGHTTP2_ERR_FLOW_CONTROL ∧
      (nghttp2_adjust_local_window_size ⟨100, 50, 0⟩ INT32_MIN).ledger = ⟨100, 50, 0⟩ ∧
      (nghttp2_adjust_local_window_size ⟨100, 50, 0⟩ INT32_MIN).delta = INT32_MIN) :=
  ⟨⟨by decide, error_is_atomic ⟨100, 50, 0⟩ INT32_MAX (by decide)⟩,
    ⟨by decide, error_is_atomic ⟨100, 50, 0⟩ INT32_MIN (by decide)⟩⟩

/-! ## The window stays within its bounds -/

/-- One call, successful or not and whatever the other counters and the delta
are, keeps `advertised_window` within `[0, 2^31 - 1]`. -/
theorem adjust_keeps_window_bounds (s : Ledger) (delta : Int)
    (h : 0 ≤ s.local_window_size ∧ s.local_window_size ≤ NGHTTP2_MAX_WINDOW_SIZE) :
    0 ≤ (nghttp2_adjust_local_window_size s delta).ledger.local_window_size ∧
      (nghttp2_adjust_local_window_size s delta).ledger.local_window_size
        ≤ NGHTTP2_MAX_WINDOW_SIZE := by
  obtain ⟨L, R, D⟩ := s
  simp only [NGHTTP2_MAX_WINDOW_SIZE] at h ⊢
  simp only [nghttp2_adjust_local_window_size, adjust_with, NGHTTP2_MAX_WINDOW_SIZE, wrap32]
  split_ifs with h1 h2 h3 h4 <;> simp only <;> omega

/-- One event keeps `advertised_window` within `[0, 2^31 - 1]`. -/
theorem applyStep_keeps_window_bounds (s : Ledger) (e : Step)
    (h : 0 ≤ s.local_window_size ∧ s.local_window_size ≤ NGHTTP2_MAX_WINDOW_SIZE) :
    0 ≤ (applyStep s e).local_window_size ∧
      (applyStep s e).local_window_size ≤ NGHTTP2_MAX_WINDOW_SIZE := by
  cases e with
  | adjust delta => exact adjust_keeps_window_bounds s delta h
  | received n => exact h

/-- C5: from any ledger with `0 <= advertised_window <= 2^31 - 1`, every finite
sequence of events (calls with arbitrary deltas, successful or failing, and
receipts of `n >= 0` bytes) ends in a ledger with
`0 <= advertised_window <= 2^31 - 1`. -/
theorem window_bounds_invariant (steps : List Step) (s : Ledger)
    (h : 0 ≤ s.local_window_size ∧ s.local_window_size ≤ NGHTTP2_MAX_WINDOW_SIZE) :
    0 ≤ (run s steps).local_window_size ∧
      (run s steps).local_window_size ≤ NGHTTP2_MAX_WINDOW_SIZE := by
  induction steps generalizing s with
  | nil => exact h
  | cons e rest ih =>
    simp only [run, List.foldl_cons]
    exact ih (applyStep s e) (applyStep_keeps_window_bounds s e h)

/-- A run that shrinks, receives, fails to grow past the maximum and grows
again; the window ends at 65535. -/
theorem window_bounds_invariant_witness :
    (run ⟨65535, 0, 0⟩ [Step.adjust (-1000), Step.received 1000, Step.adjust INT32_MAX,
        Step.adjust 1000]).local_window_size = 65535 ∧
      0 ≤ (run ⟨65535, 0, 0⟩ [Step.adjust (-1000), Step.received 1000, Step.adjust INT32_MAX,
        Step.adjust 1000]).local_window_size ∧
      (run ⟨65535, 0, 0⟩ [Step.adjust (-1000), Step.received 1000, Step.adjust INT32_MAX,
        Step.adjust 1000]).local_window_size ≤ NGHTTP2_MAX_WINDOW_SIZE :=
  ⟨by decide, window_bounds_invariant _ ⟨65535, 0, 0⟩ (by decide)⟩

/-! ## Shrinking and growing back -/

/-- C6 as stated fails on the scenario of the specification itself: from
`(65535, 0, 0)`, the shrink by 1000 gives `(64535, -1000, 1000)`, the receipt
of 1000 bytes gives `(64535, 0, 1000)`, and the grow by 1000 then takes the
branch for a non-negative `*recv_window_size_ptr`, which stores the resolved
debt in it: the call ends in `(65535, 1000, 0)`, not in `(65535, 0, 0)`. -/
theorem shrink_receive_grow_counterexample :
    nghttp2_adjust_local_window_size ⟨65535, 0, 0⟩ (-1000)
        = ⟨0, ⟨64535, -1000, 1000⟩, 0⟩ ∧
      record_received ⟨64535, -1000, 1000⟩ 1000 = ⟨64535, 0, 1000⟩ ∧
      nghttp2_adjust_local_window_size ⟨64535, 0, 1000⟩ 1000
        = ⟨0, ⟨65535, 1000, 0⟩, 0⟩ ∧
      (nghttp2_adjust_local_window_size ⟨64535, 0, 1000⟩ 1000).ledger ≠ ⟨65535, 0, 0⟩ := by
  decide

/-- C6, amended: for `0 < d <= W <= 2^31 - 1`, from `(W, 0, 0)` the call with
`-d` succeeds and gives `(W - d, -d, d)`, the receipt of `d` bytes gives
`(W - d, 0, d)`, and the call with `+d` succeeds, restores
`advertised_window = W` and `pending_shrink_debt = 0`, leaves
`consumed_credit = d` (the received bytes, not yet returned to the peer) and
sets the delta output to 0. -/
theorem shrink_receive_grow (W d : Int) (hd : 0 < d) (hdW : d ≤ W)
    (hW : W ≤ NGHTTP2_MAX_WINDOW_SIZE) :
    nghttp2_adjust_local_window_size ⟨W, 0, 0⟩ (-d) = ⟨0, ⟨W - d, -d, d⟩, 0⟩ ∧
      record_received ⟨W - d, -d, d⟩ d = ⟨W - d, 0, d⟩ ∧
      nghttp2_adjust_local_window_size ⟨W - d, 0, d⟩ d = ⟨0, ⟨W, d, 0⟩, 0⟩ := by
  simp only [NGHTTP2_MAX_WINDOW_SIZE] at hW
  have h0 : ¬ -d > 0 := by omega
  have hmax : nghttp2_max 0 0 = 0 := by decide
  refine ⟨?_, ?_, ?_⟩
  · simp only [nghttp2_adjust_local_window_size, adjust_with, if_neg h0, INT32_MIN, INT32_MAX,
      wrap32]
    rw [if_neg (by omega)]
    simp only [AdjustResult.mk.injEq, Ledger.mk.injEq, true_and, and_true]
    omega
  · simp only [record_received, Ledger.mk.injEq, true_and, and_true]
    omega
  · have hnr : wrap32 (0 - d) = -d := by unfold wrap32; omega
    have hneg : -d < 0 := by omega
    have hlim : wrap32 (NGHTTP2_MAX_WINDOW_SIZE + -d) = 2147483647 - d := by
      unfold wrap32 NGHTTP2_MAX_WINDOW_SIZE; omega
    have hguard : ¬ W - d > 2147483647 - d := by omega
    have hopp : wrap32 (- -d) = d := by unfold wrap32; omega
    have hmin : nghttp2_min d d = d := by rw [nghttp2_min_eq]; omega
    have hloc : wrap32 (W - d - -d) = W := by unfold wrap32; omega
    have hzero : wrap32 (d - d) = 0 := by unfold wrap32; omega
    have hR : ¬ (0 : Int) < 0 := by decide
    simp only [nghttp2_adjust_local_window_size, adjust_with, if_pos hd, hmax, hnr,
      if_pos hneg, hlim, if_neg hguard, hopp, hmin, hloc, hzero, if_neg hR]

/-- The scenario of the specification, `W = 65535` and `d = 1000`. -/
theorem shrink_receive_grow_witness :
    nghttp2_adjust_local_window_size ⟨65535, 0, 0⟩ (-1000)
        = ⟨0, ⟨65535 - 1000, -1000, 1000⟩, 0⟩ ∧
      record_received ⟨65535 - 1000, -1000, 1000⟩ 1000 = ⟨65535 - 1000, 0, 1000⟩ ∧
      nghttp2_adjust_local_window_size ⟨65535 - 1000, 0, 1000⟩ 1000
        = ⟨0, ⟨65535, 1000, 0⟩, 0⟩ :=
  shrink_receive_grow 65535 1000 (by decide) (by decide) (by decide)

/-- C7: for `0 <= d <= W <= 2^31 - 1`, from `(W, 0, 0)` the call with `-d` and
then the call with `+d` both succeed, and the second one ends in `(W, 0, 0)`
with delta output 0. -/
theorem shrink_then_grow (W d : Int) (hd : 0 ≤ d) (hdW : d ≤ W)
    (hW : W ≤ NGHTTP2_MAX_WINDOW_SIZE) :
    (nghttp2_adjust_local_window_size ⟨W, 0, 0⟩ (-d)).rv = 0 ∧
      nghttp2_adjust_local_window_size
        (nghttp2_adjust_local_window_size ⟨W, 0, 0⟩ (-d)).ledger d = ⟨0, ⟨W, 0, 0⟩, 0⟩ := by
  simp only [NGHTTP2_MAX_WINDOW_SIZE] at hW
  have h0 : ¬ -d > 0 := by omega
  have hfirst : nghttp2_adjust_local_window_size ⟨W, 0, 0⟩ (-d) = ⟨0, ⟨W - d, -d, d⟩, 0⟩ := by
    simp only [nghttp2_adjust_local_window_size, adjust_with, if_neg h0, INT32_MIN, INT32_MAX,
      wrap32]
    rw [if_neg (by omega)]
    simp only [AdjustResult.mk.injEq, Ledger.mk.injEq, true_and, and_true]
    omega
  rw [hfirst]
  refine ⟨rfl, ?_⟩
  simp only
  rcases hd.eq_or_lt with hz | hpos
  · subst hz
    simp only [nghttp2_adjust_local_window_size, adjust_with, INT32_MIN, INT32_MAX, wrap32]
    rw [if_neg (by decide), if_neg (by omega)]
    simp only [AdjustResult.mk.injEq, Ledger.mk.injEq, true_and, and_true]
    omega
  · have hmax : nghttp2_max 0 (-d) = 0 := by rw [nghttp2_max_eq]; omega
    have hnr : wrap32 (0 - d) = -d := by unfold wrap32; omega
    have hneg : -d < 0 := by omega
    have hlim : wrap32 (NGHTTP2_MAX_WINDOW_SIZE + -d) = 2147483647 - d := by
      unfold wrap32 NGHTTP2_MAX_WINDOW_SIZE; omega
    have hguard : ¬ W - d > 2147483647 - d := by omega
    have hopp : wrap32 (- -d) = d := by unfold wrap32; omega
    have hmin : nghttp2_min d d = d := by rw [nghttp2_min_eq]; omega
    have hloc : wrap32 (W - d - -d) = W := by unfold wrap32; omega
    have hzero : wrap32 (d - d) = 0 := by unfold wrap32; omega
    have hback : wrap32 (-d + d) = 0 := by unfold wrap32; omega
    simp only [nghttp2_adjust_local_window_size, adjust_with, if_pos hpos, hmax, hnr,
      if_pos hneg, hlim, if_neg hguard, hopp, hmin, hloc, hzero, hback]

/-- The library's own test: `(101, 0, 0)` shrunk by 1 and grown by 1 again. -/
theorem shrink_then_grow_witness :
    (nghttp2_adjust_local_window_size ⟨101, 0, 0⟩ (-1)).rv = 0 ∧
      nghttp2_adjust_local_window_size
        (nghttp2_adjust_local_window_size ⟨101, 0, 0⟩ (-1)).ledger 1 = ⟨0, ⟨101, 0, 0⟩, 0⟩ :=
  shrink_then_grow 101 1 (by decide) (by decide) (by decide)

/-! ## Exactly when a call fails -/

/-- C8: for every ledger of `int32_t` values with `advertised_window >= 0` and
every `int32_t` `delta <= 0`, the call returns the flow-control error exactly
when `L + delta < 0`, or `R + delta < -2^31`, or `D - delta > 2^31 - 1` (sums
over the integers), and returns 0 exactly when none of the three holds. -/
theorem shrink_fails_iff (s : Ledger) (delta : Int) (hs : s.isInt32) (hd : isInt32 delta)
    (hL : 0 ≤ s.local_window_size) (hle : delta ≤ 0) :
    ((nghttp2_adjust_local_window_size s delta).rv = NGHTTP2_ERR_FLOW_CONTROL ↔
        (s.local_window_size + delta < 0 ∨ s.recv_window_size + delta < -2147483648 ∨
          s.recv_reduction - delta > 2147483647)) ∧
      ((nghttp2_adjust_local_window_size s delta).rv = 0 ↔
        ¬ (s.local_window_size + delta < 0 ∨ s.recv_window_size + delta < -2147483648 ∨
          s.recv_reduction - delta > 2147483647)) := by
  have hrep : INT32_MIN ≤ s.local_window_size + delta := by
    simp only [isInt32, INT32_MIN, INT32_MAX] at hd ⊢
    omega
  rw [machine_shrink s delta hs hd hle hrep]
  simp only [INT32_MIN, INT32_MAX, NGHTTP2_ERR_FLOW_CONTROL]
  split_ifs with h
  · simp only [h, true_iff, not_true_eq_false, iff_false]
    decide
  · simp only [h, iff_false, not_false_eq_true, iff_true]
    decide

/-- The library's own test: `(100, 50, 0)` with `delta = INT32_MIN` is
rejected, because `100 + INT32_MIN < 0`. -/
theorem shrink_fails_iff_witness :
    (100 : Int) + INT32_MIN < 0 ∧
      (nghttp2_adjust_local_window_size ⟨100, 50, 0⟩ INT32_MIN).rv
        = NGHTTP2_ERR_FLOW_CONTROL :=
  ⟨by decide,
    (shrink_fails_iff ⟨100, 50, 0⟩ INT32_MIN (by decide) (by decide) (by decide)
      (by decide)).1.mpr (Or.inl (by decide))⟩

/-- C9: for every ledger of `int32_t` values and every `int32_t` `delta > 0`,
the call returns the flow-control error exactly when `delta > max(0, R)` and
`L + (delta - max(0, R)) > 2^31 - 1`; a grow with `delta <= max(0, R)` returns
0. -/
theorem grow_fails_iff (s : Ledger) (delta : Int) (hs : s.isInt32) (hd : isInt32 delta)
    (hpos : 0 < delta) :
    ((nghttp2_adjust_local_window_size s delta).rv = NGHTTP2_ERR_FLOW_CONTROL ↔
        (delta > max 0 s.recv_window_size ∧
          s.local_window_size + (delta - max 0 s.recv_window_size) > 2147483647)) ∧
      (delta ≤ max 0 s.recv_window_size →
        (nghttp2_adjust_local_window_size s delta).rv = 0) := by
  rw [machine_grow s delta hs hd hpos]
  simp only [NGHTTP2_MAX_WINDOW_SIZE, NGHTTP2_ERR_FLOW_CONTROL]
  by_cases h1 : max 0 s.recv_window_size - delta < 0
  · by_cases h2 : s.local_window_size > 2147483647 + (max 0 s.recv_window_size - delta)
    · rw [if_pos h1, if_pos h2]
      exact ⟨⟨fun _ => by omega, fun _ => rfl⟩, fun h => by omega⟩
    · rw [if_pos h1, if_neg h2]
      exact ⟨⟨fun h => by simp at h, fun h => by omega⟩, fun _ => rfl⟩
  · rw [if_neg h1]
    exact ⟨⟨fun h => by simp at h, fun h => by omega⟩, fun _ => rfl⟩

/-- The library's own test: `(100, 50, 0)` with `delta = INT32_MAX` is
rejected. -/
theorem grow_fails_iff_witness :
    (nghttp2_adjust_local_window_size ⟨100, 50, 0⟩ INT32_MAX).rv
      = NGHTTP2_ERR_FLOW_CONTROL :=
  (grow_fails_iff ⟨100, 50, 0⟩ INT32_MAX (by decide) (by decide) (by decide)).1.mpr
    ⟨by decide, by decide⟩


/-! ## No wraparound -/

/-- C10: for every ledger of `int32_t` values with `advertised_window >= 0` and
`pending_shrink_debt >= 0` and every `int32_t` delta, every arithmetic
expression the function evaluates has, over the unbounded integers, a value in
`[-2^31, 2^31 - 1]`, and the function computed with wrapping 32-bit arithmetic
and with exact integer arithmetic returns the same code, ledger and delta. -/
theorem no_wraparound (s : Ledger) (delta : Int) (hs : s.isInt32) (hd : isInt32 delta)
    (hL : 0 ≤ s.local_window_size) (hD : 0 ≤ s.recv_reduction) :
    (∀ e ∈ adjust_exprs s delta, isInt32 e) ∧
      nghttp2_adjust_local_window_size s delta =
        nghttp2_adjust_local_window_size_exact s delta := by
  constructor
  · obtain ⟨L, R, D⟩ := s
    simp only [Ledger.isInt32, isInt32, INT32_MIN, INT32_MAX] at hs hd hL hD
    simp only [adjust_exprs, nghttp2_max_eq, nghttp2_min_eq, NGHTTP2_MAX_WINDOW_SIZE,
      INT32_MIN, INT32_MAX, isInt32]
    split_ifs <;> simp only [List.forall_mem_cons, List.not_mem_nil, false_implies,
      implies_true, and_true] <;> omega
  · by_cases hpos : 0 < delta
    · rw [machine_grow s delta hs hd hpos]
      obtain ⟨L, R, D⟩ := s
      simp only [Ledger.isInt32, isInt32, INT32_MIN, INT32_MAX] at hs hd hL hD
      simp only [nghttp2_adjust_local_window_size_exact, adjust_with, if_pos hpos, id,
        nghttp2_max_eq, nghttp2_min_eq]
      by_cases hneg : max 0 R - delta < 0
      · have hdel : wrap32 (delta - min D (-(max 0 R - delta)))
            = delta - min D (-(max 0 R - delta)) := by
          unfold wrap32; omega
        have hrw : R < 0 → wrap32 (R + min D (-(max 0 R - delta)))
            = R + min D (-(max 0 R - delta)) := by
          intro h; unfold wrap32; omega
        simp only [if_pos hneg, hdel]
        by_cases hR : R < 0
        · simp only [if_pos hR, hrw hR]
        · simp only [if_neg hR]
      · simp only [if_neg hneg]
    · have hle : delta ≤ 0 := not_lt.mp hpos
      have hrep : INT32_MIN ≤ s.local_window_size + delta := by
        simp only [isInt32, INT32_MIN, INT32_MAX] at hd ⊢
        omega
      rw [machine_shrink s delta hs hd hle hrep]
      simp only [nghttp2_adjust_local_window_size_exact, adjust_with, if_neg hpos, id]
      by_cases hg : s.local_window_size + delta < 0 ∨ s.recv_window_size + delta < INT32_MIN ∨
          s.recv_reduction - delta > INT32_MAX
      · have hg' : s.local_window_size + delta < 0 ∨
            s.recv_window_size < INT32_MIN - delta ∨
            s.recv_reduction > INT32_MAX + delta := by omega
        rw [if_pos hg, if_pos hg']
      · have hg' : ¬ (s.local_window_size + delta < 0 ∨
            s.recv_window_size < INT32_MIN - delta ∨
            s.recv_reduction > INT32_MAX + delta) := by omega
        rw [if_neg hg, if_neg hg']

/-- On the ledger `(100, -1, 1)` grown by 1 every intermediate value is
representable and both readings give `(101, 0, 0)` with delta 0. -/
theorem no_wraparound_witness :
    adjust_exprs ⟨100, -1, 1⟩ 1 = [-1, 2147483646, 101, 1, 0, 0, 0] ∧
      (∀ e ∈ adjust_exprs ⟨100, -1, 1⟩ 1, isInt32 e) ∧
      nghttp2_adjust_local_window_size ⟨100, -1, 1⟩ 1 =
        nghttp2_adjust_local_window_size_exact ⟨100, -1, 1⟩ 1 :=
  ⟨by decide, no_wraparound ⟨100, -1, 1⟩ 1 (by decide) (by decide) (by decide) (by decide)⟩

/-! ## A delta of zero -/

/-- C11: for every ledger of `int32_t` values with `advertised_window >= 0`,
the call with `delta = 0` succeeds and leaves `advertised_window`,
`consumed_credit`, `pending_shrink_debt` and delta as they were. -/
theorem zero_delta_is_noop (s : Ledger) (hs : s.isInt32) (hL : 0 ≤ s.local_window_size) :
    nghttp2_adjust_local_window_size s 0 = ⟨0, s, 0⟩ := by
  have hrep : INT32_MIN ≤ s.local_window_size + 0 := by
    simp only [INT32_MIN]
    omega
  rw [machine_shrink s 0 hs (by decide) (le_refl 0) hrep]
  obtain ⟨L, R, D⟩ := s
  simp only [Ledger.isInt32, isInt32, INT32_MIN, INT32_MAX] at hs hL ⊢
  rw [if_neg (by omega)]
  simp only [add_zero, sub_zero]

/-- The library's own test: `(100, 50, 0)` with delta 0 stays `(100, 50, 0)`,
delta 0. -/
theorem zero_delta_is_noop_witness :
    nghttp2_adjust_local_window_size ⟨100, 50, 0⟩ 0 = ⟨0, ⟨100, 50, 0⟩, 0⟩ :=
  zero_delta_is_noop ⟨100, 50, 0⟩ (by decide) (by decide)

/-! ## The credit threshold -/

/-- Halving with `Int.tdiv`, by the sign of the dividend. -/
theorem tdiv_two_cases (a : Int) :
    Int.tdiv a 2 = if 0 ≤ a then a / 2 else -((-a) / 2) := by
  split_ifs with h
  · exact Int.tdiv_eq_ediv h (by decide)
  · have h2 : Int.tdiv (-a) 2 = (-a) / 2 := Int.tdiv_eq_ediv (by omega) (by decide)
    have h3 := Int.neg_tdiv (-a) 2
    rw [neg_neg] at h3
    rw [h3, h2]

/-- Halving with `div_toward_zero`, by the sign of the dividend. -/
theorem div_toward_zero_two_cases (a : Int) :
    div_toward_zero a 2 = if 0 ≤ a then a / 2 else -((-a) / 2) := by
  unfold div_toward_zero
  have hs2 : Int.sign 2 = 1 := by decide
  have hn2 : (2 : Int).natAbs = 2 := by decide
  rw [hs2, hn2, mul_one, Int.ofNat_ediv]
  split_ifs with h
  · rcases h.eq_or_lt with h0 | hpos
    · subst h0; decide
    · rw [Int.sign_eq_one_of_pos hpos, one_mul, Int.natAbs_of_nonneg h]
      rfl
  · have hneg : a < 0 := by omega
    rw [Int.sign_eq_neg_one_of_neg hneg, Int.ofNat_natAbs_of_nonpos (by omega)]
    simp

/-- The C quotient by 2 is the quotient truncated toward zero. -/
theorem tdiv_two_eq_div_toward_zero (a : Int) : Int.tdiv a 2 = div_toward_zero a 2 := by
  rw [tdiv_two_cases, div_toward_zero_two_cases]

/-- C12: for all `advertised_window` and `consumed_credit`, the function
returns non-zero exactly when `consumed_credit >= advertised_window / 2` with
`/` truncating toward zero, that is, exactly when `CreditThreshold` is true;
it returns 1 for `(100, 50)`, 0 for `(100, 49)`, 1 for `(0, 0)`, and 1 for
`(-1, 0)` because `-1 / 2` truncates to 0. -/
theorem threshold_definition :
    (∀ L R : Int,
        (nghttp2_should_send_window_update L R ≠ 0 ↔ R ≥ div_toward_zero L 2) ∧
        (nghttp2_should_send_window_update L R ≠ 0 ↔ CreditThreshold L R = true)) ∧
      nghttp2_should_send_window_update 100 50 = 1 ∧
      nghttp2_should_send_window_update 100 49 = 0 ∧
      nghttp2_should_send_window_update 0 0 = 1 ∧
      nghttp2_should_send_window_update (-1) 0 = 1 ∧
      div_toward_zero (-1) 2 = 0 := by
  refine ⟨fun L R => ?_, by decide, by decide, by decide, by decide, by decide⟩
  have key : nghttp2_should_send_window_update L R ≠ 0 ↔ R ≥ div_toward_zero L 2 := by
    unfold nghttp2_should_send_window_update
    rw [tdiv_two_eq_div_toward_zero]
    split_ifs with h
    · exact ⟨fun _ => h, fun _ => by decide⟩
    · exact ⟨fun hne => absurd rfl hne, fun hge => absurd hge h⟩
  refine ⟨key, ?_⟩
  rw [key]
  unfold CreditThreshold
  exact decide_eq_true_iff.symm

/-! ## Conservation of the peer's allowance -/

/-- C13: in exact integer arithmetic, for every ledger and every delta on which
the call succeeds, `advertised_window - consumed_credit` changes by exactly the
delta output; for `delta <= 0` the delta output is 0 and that difference does
not change. -/
theorem allowance_conserved (s : Ledger) (delta : Int)
    (hok : (nghttp2_adjust_local_window_size_exact s delta).rv = 0) :
    ((nghttp2_adjust_local_window_size_exact s delta).ledger.local_window_size -
          (nghttp2_adjust_local_window_size_exact s delta).ledger.recv_window_size) -
        (s.local_window_size - s.recv_window_size) =
        (nghttp2_adjust_local_window_size_exact s delta).delta ∧
      (delta ≤ 0 → (nghttp2_adjust_local_window_size_exact s delta).delta = 0) := by
  obtain ⟨L, R, D⟩ := s
  simp only [nghttp2_adjust_local_window_size_exact, adjust_with, id, nghttp2_max_eq,
    nghttp2_min_eq, NGHTTP2_ERR_FLOW_CONTROL] at hok ⊢
  by_cases hpos : delta > 0
  · simp only [if_pos hpos] at hok ⊢
    by_cases hneg : max 0 R - delta < 0
    · simp only [if_pos hneg] at hok ⊢
      by_cases hguard : L > NGHTTP2_MAX_WINDOW_SIZE + (max 0 R - delta)
      · rw [if_pos hguard] at hok
        simp at hok
      · simp only [if_neg hguard]
        by_cases hR : R < 0
        · simp only [if_pos hR]
          omega
        · simp only [if_neg hR]
          omega
    · simp only [if_neg hneg]
      omega
  · simp only [if_neg hpos] at hok ⊢
    split_ifs at hok ⊢ with hg
    · simp at hok
    · simp only [implies_true, and_true]
      omega

/-- The grow by 1000 after a shrink and a receipt of 1000 bytes: the difference
stays 64535 and nothing is announced. -/
theorem allowance_conserved_witness :
    nghttp2_adjust_local_window_size_exact ⟨64535, 0, 1000⟩ 1000 = ⟨0, ⟨65535, 1000, 0⟩, 0⟩ ∧
      ((nghttp2_adjust_local_window_size_exact ⟨64535, 0, 1000⟩ 1000).ledger.local_window_size -
          (nghttp2_adjust_local_window_size_exact ⟨64535, 0, 1000⟩ 1000).ledger.recv_window_size) -
        ((64535 : Int) - 0) =
        (nghttp2_adjust_local_window_size_exact ⟨64535, 0, 1000⟩ 1000).delta :=
  ⟨by decide, (allowance_conserved ⟨64535, 0, 1000⟩ 1000 (by decide)).1⟩

/-! ## No credit update after a shrink -/

/-- With a non-negative window and a negative credit the threshold is not
reached: half of the window is at least 0. -/
theorem should_send_eq_zero (L R : Int) (hL : 0 ≤ L) (hR : R < 0) :
    nghttp2_should_send_window_update L R = 0 := by
  unfold nghttp2_should_send_window_update
  rw [tdiv_two_cases, if_pos hL]
  exact if_neg (by omega)

/-- C14: for every ledger of `int32_t` values with `consumed_credit <= 0` and
every `int32_t` `delta < 0` on which the call succeeds,
`nghttp2_should_send_window_update` applied to the resulting
`advertised_window` and `consumed_credit` returns 0; and it returns 0 whenever
`advertised_window >= 0` and `consumed_credit < 0`. -/
theorem no_update_after_shrink (s : Ledger) (delta : Int) (hs : s.isInt32)
    (hd : isInt32 delta) (hR : s.recv_window_size ≤ 0) (hneg : delta < 0)
    (hok : (nghttp2_adjust_local_window_size s delta).rv = 0) :
    nghttp2_should_send_window_update
        (nghttp2_adjust_local_window_size s delta).ledger.local_window_size
        (nghttp2_adjust_local_window_size s delta).ledger.recv_window_size = 0 ∧
      (∀ L R : Int, 0 ≤ L → R < 0 → nghttp2_should_send_window_update L R = 0) := by
  refine ⟨?_, should_send_eq_zero⟩
  obtain ⟨L, R, D⟩ := s
  have h0 : ¬ delta > 0 := by omega
  simp only [Ledger.isInt32, isInt32, INT32_MIN, INT32_MAX] at hs hd hR
  simp only [nghttp2_adjust_local_window_size, adjust_with, if_neg h0, INT32_MIN, INT32_MAX,
    NGHTTP2_ERR_FLOW_CONTROL] at hok ⊢
  by_cases hg : wrap32 (L + delta) < 0 ∨ R < wrap32 (-2147483648 - delta) ∨
      D > wrap32 (2147483647 + delta)
  · rw [if_pos hg] at hok
    simp at hok
  · rw [if_neg hg]
    apply should_send_eq_zero
    · simp only
      omega
    · simp only [wrap32] at hg ⊢
      omega

/-- The shrink of the specification's scenario: after `(65535, 0, 0)` is shrunk
by 1000 no credit update is due. -/
theorem no_update_after_shrink_witness :
    nghttp2_adjust_local_window_size ⟨65535, 0, 0⟩ (-1000) = ⟨0, ⟨64535, -1000, 1000⟩, 0⟩ ∧
      nghttp2_should_send_window_update
        (nghttp2_adjust_local_window_size ⟨65535, 0, 0⟩ (-1000)).ledger.local_window_size
        (nghttp2_adjust_local_window_size ⟨65535, 0, 0⟩ (-1000)).ledger.recv_window_size = 0 :=
  ⟨by decide,
    (no_update_after_shrink ⟨65535, 0, 0⟩ (-1000) (by decide) (by decide) (by decide)
      (by decide) (by decide)).1⟩

/-! ## The debt invariant -/

/-- One call, successful or not, keeps the debt invariant of a ledger of
`int32_t` values. -/
theorem adjust_keeps_debt_invariant (s : Ledger) (delta : Int) (hs : s.isInt32)
    (hd : isInt32 delta) (hinv : debt_invariant s) :
    debt_invariant (nghttp2_adjust_local_window_size s delta).ledger := by
  by_cases hpos : 0 < delta
  · rw [machine_grow s delta hs hd hpos]
    obtain ⟨L, R, D⟩ := s
    simp only [Ledger.isInt32, isInt32, INT32_MIN, INT32_MAX, debt_invariant] at hs hd hinv ⊢
    by_cases hneg : max 0 R - delta < 0
    · rw [if_pos hneg]
      by_cases hguard : L > NGHTTP2_MAX_WINDOW_SIZE + (max 0 R - delta)
      · rw [if_pos hguard]
        exact hinv
      · rw [if_neg hguard]
        by_cases hR : R < 0
        · simp only [if_pos hR, wrap32]
          omega
        · simp only [if_neg hR]
          omega
    · rw [if_neg hneg]
      simp only
      omega
  · obtain ⟨L, R, D⟩ := s
    have h0 : ¬ delta > 0 := hpos
    simp only [Ledger.isInt32, isInt32, INT32_MIN, INT32_MAX, debt_invariant] at hs hd hinv ⊢
    simp only [nghttp2_adjust_local_window_size, adjust_with, if_neg h0, INT32_MIN, INT32_MAX]
    by_cases hg : wrap32 (L + delta) < 0 ∨ R < wrap32 (-2147483648 - delta) ∨
        D > wrap32 (2147483647 + delta)
    · rw [if_pos hg]
      exact hinv
    · rw [if_neg hg]
      simp only [wrap32] at hg ⊢
      omega

/-- A successful grow of a ledger of `int32_t` values with a non-negative debt
does not increase the debt. -/
theorem grow_does_not_increase_debt (s : Ledger) (delta : Int) (hs : s.isInt32)
    (hd : isInt32 delta) (hdebt : 0 ≤ s.recv_reduction) (hpos : 0 < delta) :
    (nghttp2_adjust_local_window_size s delta).ledger.recv_reduction ≤ s.recv_reduction := by
  rw [machine_grow s delta hs hd hpos]
  split_ifs <;> simp only <;> omega

/-- C15: the predicate `pending_shrink_debt >= 0` and
`consumed_credit + pending_shrink_debt >= 0` holds for every initial ledger
`(W, 0, 0)`, is preserved by every call on a ledger of `int32_t` values with an
`int32_t` delta, successful or failing, and by the receipt of `n >= 0` bytes;
and on a ledger satisfying it a successful call with `delta > 0` never
increases `pending_shrink_debt`. -/
theorem debt_invariant_preserved :
    (∀ W : Int, debt_invariant ⟨W, 0, 0⟩) ∧
      (∀ (s : Ledger) (delta : Int), s.isInt32 → isInt32 delta → debt_invariant s →
        debt_invariant (nghttp2_adjust_local_window_size s delta).ledger) ∧
      (∀ (s : Ledger) (n : Nat), debt_invariant s → debt_invariant (record_received s n)) ∧
      (∀ (s : Ledger) (delta : Int), s.isInt32 → isInt32 delta → debt_invariant s →
        0 < delta → (nghttp2_adjust_local_window_size s delta).rv = 0 →
        (nghttp2_adjust_local_window_size s delta).ledger.recv_reduction
          ≤ s.recv_reduction) := by
  refine ⟨fun W => ?_, adjust_keeps_debt_invariant, fun s n hinv => ?_,
    fun s delta hs hd hinv hpos _ => grow_does_not_increase_debt s delta hs hd hinv.1 hpos⟩
  · simp only [debt_invariant]
    omega
  · simp only [debt_invariant, record_received] at hinv ⊢
    omega

/-- The invariant along the specification's scenario: it holds for
`(65535, 0, 0)`, after the shrink by 1000, after the receipt of 1000 bytes, and
after the grow by 1000, which lowers the debt from 1000 to 0. -/
theorem debt_invariant_preserved_witness :
    debt_invariant ⟨65535, 0, 0⟩ ∧
      debt_invariant (nghttp2_adjust_local_window_size ⟨65535, 0, 0⟩ (-1000)).ledger ∧
      debt_invariant (record_received ⟨64535, -1000, 1000⟩ (1000 : Nat)) ∧
      (nghttp2_adjust_local_window_size ⟨64535, 0, 1000⟩ 1000).ledger.recv_reduction
        ≤ (1000 : Int) :=
  ⟨debt_invariant_preserved.1 65535,
    debt_invariant_preserved.2.1 ⟨65535, 0, 0⟩ (-1000) (by decide) (by decide) (by decide),
    debt_invariant_preserved.2.2.1 ⟨64535, -1000, 1000⟩ 1000 (by decide),
    debt_invariant_preserved.2.2.2 ⟨64535, 0, 1000⟩ 1000 (by decide) (by decide) (by decide)
      (by decide) (by decide)⟩

/-! ## Bounds on the announced increment -/

/-- C16: for every ledger of `int32_t` values with `pending_shrink_debt >= 0`
and every `int32_t` `delta > 0` on which the call succeeds, the delta output
lies between 0 and `delta`, and equals `delta` when `pending_shrink_debt = 0`. -/
theorem announced_increment_bounds (s : Ledger) (delta : Int) (hs : s.isInt32)
    (hd : isInt32 delta) (hdebt : 0 ≤ s.recv_reduction) (hpos : 0 < delta)
    (hok : (nghttp2_adjust_local_window_size s delta).rv = 0) :
    0 ≤ (nghttp2_adjust_local_window_size s delta).delta ∧
      (nghttp2_adjust_local_window_size s delta).delta ≤ delta ∧
      (s.recv_reduction = 0 → (nghttp2_adjust_local_window_size s delta).delta = delta) := by
  rw [machine_grow s delta hs hd hpos] at hok ⊢
  obtain ⟨L, R, D⟩ := s
  simp only [Ledger.isInt32, isInt32, INT32_MIN, INT32_MAX, NGHTTP2_ERR_FLOW_CONTROL]
    at hs hd hdebt hok ⊢
  by_cases hneg : max 0 R - delta < 0
  · rw [if_pos hneg] at hok ⊢
    by_cases hguard : L > NGHTTP2_MAX_WINDOW_SIZE + (max 0 R - delta)
    · rw [if_pos hguard] at hok
      simp at hok
    · rw [if_neg hguard]
      simp only [wrap32]
      omega
  · rw [if_neg hneg]
    refine ⟨?_, le_refl _, fun _ => rfl⟩
    simp only
    omega

/-- The library's own tests: `(198, 0, 3)` grown by 3 announces 0, and
`(101, 0, 0)` grown by 100 announces all 100. -/
theorem announced_increment_bounds_witness :
    (nghttp2_adjust_local_window_size ⟨198, 0, 3⟩ 3).delta = 0 ∧
      (0 ≤ (nghttp2_adjust_local_window_size ⟨198, 0, 3⟩ 3).delta ∧
        (nghttp2_adjust_local_window_size ⟨198, 0, 3⟩ 3).delta ≤ 3) ∧
      (nghttp2_adjust_local_window_size ⟨101, 0, 0⟩ 100).delta = 100 :=
  ⟨by decide,
    ⟨(announced_increment_bounds ⟨198, 0, 3⟩ 3 (by decide) (by decide) (by decide)
        (by decide) (by decide)).1,
      (announced_increment_bounds ⟨198, 0, 3⟩ 3 (by decide) (by decide) (by decide)
        (by decide) (by decide)).2.1⟩,
    (announced_increment_bounds ⟨101, 0, 0⟩ 100 (by decide) (by decide) (by decide)
      (by decide) (by decide)).2.2 rfl⟩

/-! ## Header field values -/

set_option maxRecDepth 1000000 in
/-- Both tables have an entry for every octet. -/
theorem tables_length :
    VALID_HD_NAME_CHARS.length = 256 ∧ VALID_HD_VALUE_CHARS.length = 256 := by
  decide

set_option maxRecDepth 1000000 in
/-- The value table marks exactly the octets 0x00, 0x09, 0x20 to 0x7E and 0x80
to 0xFF as allowed. -/
theorem value_table_spec :
    ∀ c : Octet, table_at VALID_HD_VALUE_CHARS c = -1 ↔ ¬ is_value_octet c := by
  decide

/-- The value check returns 1 exactly on values made of allowed octets, and 0
on every other value. -/
theorem check_header_value_iff (v : List Octet) :
    (nghttp2_check_header_value v = 1 ↔ ∀ c ∈ v, is_value_octet c) ∧
      (nghttp2_check_header_value v = 0 ↔ ¬ ∀ c ∈ v, is_value_octet c) := by
  induction v with
  | nil =>
    simp only [nghttp2_check_header_value, List.not_mem_nil, false_implies, implies_true,
      not_true_eq_false, true_iff, iff_false]
    decide
  | cons c rest ih =>
    simp only [nghttp2_check_header_value, List.forall_mem_cons]
    by_cases hc : table_at VALID_HD_VALUE_CHARS c = -1
    · have hbad : ¬ is_value_octet c := (value_table_spec c).mp hc
      rw [if_pos hc]
      refine ⟨⟨fun h => absurd h (by decide), fun h => absurd h.1 hbad⟩,
        ⟨fun _ h => hbad h.1, fun _ => rfl⟩⟩
    · have hgood : is_value_octet c := by
        by_contra hn
        exact hc ((value_table_spec c).mpr hn)
      rw [if_neg hc]
      refine ⟨⟨fun h => ⟨hgood, ih.1.mp h⟩, fun h => ih.1.mpr h.2⟩,
        ⟨fun h hall => ih.2.mp h hall.2, fun h => ih.2.mpr (fun hall => h ⟨hgood, hall⟩)⟩⟩

/-- C17: for every octet string `v`, `nghttp2_check_header_value(v)` returns 1
if and only if every octet of `v` is 0x00, 0x09 (HTAB), in 0x20..0x7E or in
0x80..0xFF, and returns 0 otherwise; the empty value is accepted, and a value
containing CR (0x0D), LF (0x0A) or DEL (0x7F) is rejected. -/
theorem check_header_value_spec :
    (∀ v : List Octet,
        (nghttp2_check_header_value v = 1 ↔
          ∀ c ∈ v, c.val = 0 ∨ c.val = 9 ∨ (32 ≤ c.val ∧ c.val ≤ 126) ∨
            (128 ≤ c.val ∧ c.val ≤ 255)) ∧
        (nghttp2_check_header_value v = 0 ↔
          ¬ ∀ c ∈ v, c.val = 0 ∨ c.val = 9 ∨ (32 ≤ c.val ∧ c.val ≤ 126) ∨
            (128 ≤ c.val ∧ c.val ≤ 255))) ∧
      nghttp2_check_header_value [] = 1 ∧
      (∀ v : List Octet, (13 : Octet) ∈ v ∨ (10 : Octet) ∈ v ∨ (127 : Octet) ∈ v →
        nghttp2_check_header_value v = 0) := by
  refine ⟨fun v => check_header_value_iff v, by decide, fun v hv => ?_⟩
  refine (check_header_value_iff v).2.mpr (fun hall => ?_)
  rcases hv with h | h | h
  · exact absurd (hall _ h) (by decide)
  · exact absurd (hall _ h) (by decide)
  · exact absurd (hall _ h) (by decide)

set_option maxRecDepth 100000 in
/-- The value `text/html` is accepted, and `a` followed by CR LF is rejected. -/
theorem check_header_value_spec_witness :
    nghttp2_check_header_value [116, 101, 120, 116, 47, 104, 116, 109, 108] = 1 ∧
      nghttp2_check_header_value [97, 13, 10] = 0 :=
  ⟨(check_header_value_spec.1 _).1.mpr (by decide),
    check_header_value_spec.2.2 _ (Or.inl (by decide))⟩


/-! ## Header field names -/

set_option maxRecDepth 1000000 in
/-- The name table marks exactly the listed octets as allowed. -/
theorem name_table_spec :
    ∀ c : Octet, table_at VALID_HD_NAME_CHARS c = -1 ↔ ¬ is_name_octet c := by
  decide

set_option maxRecDepth 1000000 in
/-- An uppercase letter is not the colon, and 32 above it lies a lowercase
letter, which the name table allows and which is not the colon either. -/
theorem uppercase_facts :
    ∀ c : Octet, 65 ≤ c ∧ c ≤ 90 →
      table_at VALID_HD_NAME_CHARS (c + 32) ≠ -1 ∧ c ≠ 58 ∧ c + 32 ≠ 58 ∧
        (c + 32).val = c.val + 32 := by
  decide

/-- The function `check_header_name` in terms of the name without its leading
colon. -/
theorem check_header_name_eq (s : List Octet) (nocase : Int) :
    check_header_name s nocase =
      if without_leading_colon s = [] then 0
      else check_header_name_loop nocase (without_leading_colon s) := by
  rcases s with _ | ⟨c, rest⟩
  · rfl
  · by_cases hc : c = 58
    · rcases rest with _ | ⟨d, more⟩
      · simp only [check_header_name, without_leading_colon, if_pos hc]
        rw [if_pos trivial]
      · simp only [check_header_name, without_leading_colon, if_pos hc]
        rw [if_neg (List.cons_ne_nil d more)]
    · simp only [check_header_name, without_leading_colon, if_neg hc]
      rw [if_neg (List.cons_ne_nil c rest)]

/-- The strict loop returns 1 exactly on strings of allowed octets and 0 on all
others. -/
theorem check_header_name_loop_iff (s : List Octet) :
    (check_header_name_loop 0 s = 1 ↔ ∀ c ∈ s, is_name_octet c) ∧
      (check_header_name_loop 0 s = 0 ↔ ¬ ∀ c ∈ s, is_name_octet c) := by
  induction s with
  | nil =>
    simp only [check_header_name_loop, List.not_mem_nil, false_implies, implies_true,
      not_true_eq_false, true_iff, iff_false]
    decide
  | cons c rest ih =>
    have hstrict : ¬ ((0 : Int) ≠ 0 ∧ 65 ≤ c ∧ c ≤ 90) := fun h => h.1 rfl
    simp only [check_header_name_loop, if_neg hstrict, List.forall_mem_cons]
    by_cases hc : table_at VALID_HD_NAME_CHARS c = -1
    · have hbad : ¬ is_name_octet c := (name_table_spec c).mp hc
      rw [if_pos hc]
      refine ⟨⟨fun h => absurd h (by decide), fun h => absurd h.1 hbad⟩,
        ⟨fun _ h => hbad h.1, fun _ => rfl⟩⟩
    · have hgood : is_name_octet c := by
        by_contra hn
        exact hc ((name_table_spec c).mpr hn)
      rw [if_neg hc]
      refine ⟨⟨fun h => ⟨hgood, ih.1.mp h⟩, fun h => ih.1.mpr h.2⟩,
        ⟨fun h hall => ih.2.mp h hall.2, fun h => ih.2.mpr (fun hall => h ⟨hgood, hall⟩)⟩⟩

/-- The strict name check returns 1 exactly on the names the claim describes,
and 0 on all others. -/
theorem check_header_name_iff (s : List Octet) :
    (nghttp2_check_header_name s = 1 ↔
        s ≠ [] ∧ without_leading_colon s ≠ [] ∧
          ∀ c ∈ without_leading_colon s, is_name_octet c) ∧
      (nghttp2_check_header_name s = 0 ↔
        ¬ (s ≠ [] ∧ without_leading_colon s ≠ [] ∧
          ∀ c ∈ without_leading_colon s, is_name_octet c)) := by
  have hne : without_leading_colon s ≠ [] → s ≠ [] := by
    intro h hs
    subst hs
    exact h rfl
  unfold nghttp2_check_header_name
  rw [check_header_name_eq]
  by_cases hw : without_leading_colon s = []
  · rw [if_pos hw]
    refine ⟨⟨fun h => absurd h (by decide), fun h => absurd hw h.2.1⟩,
      ⟨fun _ h => h.2.1 hw, fun _ => rfl⟩⟩
  · rw [if_neg hw]
    have ih := check_header_name_loop_iff (without_leading_colon s)
    refine ⟨⟨fun h => ⟨hne hw, hw, ih.1.mp h⟩, fun h => ih.1.mpr h.2.2⟩,
      ⟨fun h hall => ih.2.mp h hall.2.2, fun h => ih.2.mpr (fun hall => h ⟨hne hw, hw, hall⟩)⟩⟩

/-- An octet of a name other than the colon is still there once the leading
colon is removed. -/
theorem mem_without_leading_colon (s : List Octet) (c : Octet) (hc : c ∈ s)
    (hne : c ≠ 58) : c ∈ without_leading_colon s := by
  rcases s with _ | ⟨d, rest⟩
  · exact hc
  · by_cases hd : d = 58
    · simp only [without_leading_colon, if_pos hd]
      rcases List.mem_cons.mp hc with h | h
      · exact absurd (h.trans hd) hne
      · exact h
    · simp only [without_leading_colon, if_neg hd]
      exact hc

/-- C18: for every octet string `s`, `nghttp2_check_header_name(s)` returns 1
if and only if `s` is non-empty and, after removing at most one leading `':'`,
the remainder is non-empty and every octet of it is one of
`! # $ % & ' * + - . ^ _`, the backquote, `| ~`, a digit or a lowercase
letter, and returns 0 otherwise; the empty name, the name `":"`, every name
containing an uppercase letter and every name with a `':'` after its first
octet are rejected. -/
theorem check_header_name_spec :
    (∀ s : List Octet,
        (nghttp2_check_header_name s = 1 ↔
          s ≠ [] ∧ without_leading_colon s ≠ [] ∧
            ∀ c ∈ without_leading_colon s, is_name_octet c) ∧
        (nghttp2_check_header_name s = 0 ↔
          ¬ (s ≠ [] ∧ without_leading_colon s ≠ [] ∧
            ∀ c ∈ without_leading_colon s, is_name_octet c))) ∧
      nghttp2_check_header_name [] = 0 ∧
      nghttp2_check_header_name [58] = 0 ∧
      (∀ (s : List Octet) (c : Octet), c ∈ s → 65 ≤ c.val → c.val ≤ 90 →
        nghttp2_check_header_name s = 0) ∧
      (∀ (c : Octet) (rest : List Octet), (58 : Octet) ∈ rest →
        nghttp2_check_header_name (c :: rest) = 0) := by
  refine ⟨check_header_name_iff, by decide, by decide, fun s c hc h1 h2 => ?_,
    fun c rest hmem => ?_⟩
  · refine (check_header_name_iff s).2.mpr (fun hall => ?_)
    have hne : c ≠ 58 := by
      intro h
      rw [h] at h1
      exact absurd h1 (by decide)
    have hvalid := hall.2.2 c (mem_without_leading_colon s c hc hne)
    unfold is_name_octet at hvalid
    omega
  · refine (check_header_name_iff (c :: rest)).2.mpr (fun hall => ?_)
    have hin : (58 : Octet) ∈ without_leading_colon (c :: rest) := by
      by_cases hc : c = 58
      · simp only [without_leading_colon, if_pos hc]
        exact hmem
      · simp only [without_leading_colon, if_neg hc]
        exact List.mem_cons_of_mem c hmem
    exact absurd (hall.2.2 58 hin) (by decide)

set_option maxRecDepth 100000 in
/-- The name `:path` is accepted, and `Host` is rejected for its uppercase
`H`. -/
theorem check_header_name_spec_witness :
    nghttp2_check_header_name [58, 112, 97, 116, 104] = 1 ∧
      nghttp2_check_header_name [72, 111, 115, 116] = 0 :=
  ⟨(check_header_name_spec.1 _).1.mpr (by decide),
    check_header_name_spec.2.2.2.1 _ 72 (by decide) (by decide) (by decide)⟩


/-! ## The case-insensitive name check -/

/-- The loop that skips uppercase letters agrees with the strict loop on the
downcased string. -/
theorem check_header_name_loop_nocase (s : List Octet) :
    check_header_name_loop 1 s = check_header_name_loop 0 (nghttp2_downcase s) := by
  induction s with
  | nil => rfl
  | cons c rest ih =>
    have hstrict : ∀ d : Octet, ¬ ((0 : Int) ≠ 0 ∧ 65 ≤ d ∧ d ≤ 90) := fun _ h => h.1 rfl
    by_cases hu : 65 ≤ c ∧ c ≤ 90
    · have hskip : (1 : Int) ≠ 0 ∧ 65 ≤ c ∧ c ≤ 90 := ⟨by decide, hu⟩
      have hlow := (uppercase_facts c hu).1
      simp only [check_header_name_loop, nghttp2_downcase, if_pos hu, if_pos hskip,
        if_neg (hstrict (c + 32)), if_neg hlow]
      exact ih
    · have hkeep : ¬ ((1 : Int) ≠ 0 ∧ 65 ≤ c ∧ c ≤ 90) := fun h => hu h.2
      simp only [check_header_name_loop, nghttp2_downcase, if_neg hu, if_neg hkeep,
        if_neg (hstrict c)]
      rw [ih]

/-- Downcasing commutes with removing the leading colon. -/
theorem without_leading_colon_downcase (s : List Octet) :
    without_leading_colon (nghttp2_downcase s) =
      nghttp2_downcase (without_leading_colon s) := by
  rcases s with _ | ⟨c, rest⟩
  · rfl
  · by_cases hc : c = 58
    · have hu : ¬ (65 ≤ c ∧ c ≤ 90) := by
        rw [hc]
        decide
      simp only [nghttp2_downcase, without_leading_colon, if_neg hu, if_pos hc]
    · by_cases hu : 65 ≤ c ∧ c ≤ 90
      · have hlow := (uppercase_facts c hu).2.2.1
        simp only [nghttp2_downcase, without_leading_colon, if_pos hu, if_neg hc, if_neg hlow]
      · simp only [nghttp2_downcase, without_leading_colon, if_neg hu, if_neg hc]

/-- Downcasing leaves no string empty that was not. -/
theorem downcase_eq_nil (s : List Octet) : nghttp2_downcase s = [] ↔ s = [] := by
  rcases s with _ | ⟨c, rest⟩
  · exact ⟨fun _ => rfl, fun _ => rfl⟩
  · simp only [nghttp2_downcase]
    exact ⟨fun h => absurd h (List.cons_ne_nil _ _), fun h => absurd h (List.cons_ne_nil _ _)⟩

/-- The function `nghttp2_downcase` octet by octet: 32 is added, without
wrapping, to the octets 65 to 90, and the others stay. -/
theorem downcase_vals (s : List Octet) :
    (nghttp2_downcase s).map Fin.val =
      s.map (fun c => if 65 ≤ c.val ∧ c.val ≤ 90 then c.val + 32 else c.val) := by
  induction s with
  | nil => rfl
  | cons c rest ih =>
    simp only [nghttp2_downcase, List.map_cons, ih, List.cons.injEq, and_true]
    by_cases hu : 65 ≤ c ∧ c ≤ 90
    · have hv : 65 ≤ c.val ∧ c.val ≤ 90 := hu
      rw [if_pos hu, if_pos hv]
      exact (uppercase_facts c hu).2.2.2
    · have hv : ¬ (65 ≤ c.val ∧ c.val ≤ 90) := hu
      rw [if_neg hu, if_neg hv]

/-- C19: for every octet string `s`, `nghttp2_check_header_name_nocase(s)`
equals `nghttp2_check_header_name` of `s` after `nghttp2_downcase`, which
replaces each octet `'A'..'Z'` by its lowercase letter and leaves all other
octets unchanged. -/
theorem nocase_eq_strict_after_downcase :
    (∀ s : List Octet,
        nghttp2_check_header_name_nocase s =
          nghttp2_check_header_name (nghttp2_downcase s)) ∧
      (∀ s : List Octet,
        (nghttp2_downcase s).map Fin.val =
          s.map (fun c => if 65 ≤ c.val ∧ c.val ≤ 90 then c.val + 32 else c.val)) := by
  refine ⟨fun s => ?_, downcase_vals⟩
  unfold nghttp2_check_header_name_nocase nghttp2_check_header_name
  rw [check_header_name_eq, check_header_name_eq, without_leading_colon_downcase,
    check_header_name_loop_nocase]
  by_cases hw : without_leading_colon s = []
  · rw [if_pos hw, if_pos ((downcase_eq_nil _).mpr hw)]
  · rw [if_neg hw, if_neg (fun h => hw ((downcase_eq_nil _).mp h))]

/-- The name `Host` passes the case-insensitive check as `host` passes the
strict one. -/
theorem nocase_eq_strict_after_downcase_witness :
    nghttp2_downcase [72, 111, 115, 116] = [104, 111, 115, 116] ∧
      nghttp2_check_header_name [104, 111, 115, 116] = 1 ∧
      nghttp2_check_header_name_nocase [72, 111, 115, 116] =
        nghttp2_check_header_name (nghttp2_downcase [72, 111, 115, 116]) :=
  ⟨by decide, by decide, nocase_eq_strict_after_downcase.1 [72, 111, 115, 116]⟩

end Nghttp2
